import Mathlib

/-!
Verification development for the billing aggregation and adjustment pipeline
of the lab_site repository (src/billing/views.py, class BillingInvoiceFormView).
Money and tax rates are modelled as rationals; tabular datasets as lists of
rows; Python strings as Lean strings manipulated through their character data.
-/

namespace Billing

/-- Numeric value of a decimal digit character. -/
def charDigitVal (c : Char) : Nat := c.toNat - 48

/-- Value of a big-endian decimal digit string, as a left fold; leading zero
characters do not change the value. -/
def parseDigits (l : List Char) : Nat :=
  l.foldl (fun a c => 10 * a + charDigitVal c) 0

/-- Python slice s[:-n]: all characters but the last n. -/
def pyDropLast (s : String) (n : Nat) : String :=
  ⟨s.data.take (s.data.length - n)⟩

/-- Python slice s[-n:]: the last n characters (the whole string when it is
shorter than n). -/
def pyTakeLast (s : String) (n : Nat) : String :=
  ⟨s.data.drop (s.data.length - n)⟩

/-- Python int() applied to a string: defined when the string is a nonempty
run of decimal digits, none models the ValueError raised otherwise. -/
def pyInt (s : String) : Option Nat :=
  if s.data ≠ [] ∧ s.data.all Char.isDigit then some (parseDigits s.data)
  else none

/-- Decimal digit list of a natural number, most significant first, with a fuel
argument for structural recursion.  Models the Python str(int) formatting. -/
def natReprAux : Nat → Nat → List Char
  | 0, _ => []
  | fuel + 1, n =>
    if n < 10 then [Nat.digitChar n]
    else natReprAux fuel (n / 10) ++ [Nat.digitChar (n % 10)]

/-- Decimal digits of n, most significant first; fuel n + 1 is always enough. -/
def natRepr (n : Nat) : List Char := natReprAux (n + 1) n

/-- Python format spec 0>4 applied to a natural number: the decimal digits,
left-padded with zero characters to a width of at least four
(views.py line 226, the format string used for invoice numbers). -/
def zero_pad4 (v : Nat) : String :=
  ⟨List.replicate (4 - (natRepr v).length) '0' ++ natRepr v⟩

/-- The invoice numbering allocator (views.py lines 225-228): split the
starting code into all-but-last-4 characters and the last 4 characters parsed
as an integer, then format count consecutive codes. -/
def allocate (invoice_start : String) (n : Nat) : List String :=
  let pre := pyDropLast invoice_start 4
  let seq := (pyInt (pyTakeLast invoice_start 4)).getD 0
  (List.range n).map fun i => pre ++ zero_pad4 (seq + i)

/-- Maximal runs of decimal-digit characters in a character list, in order;
models re.findall applied with the digit character class. -/
def digitRunsAux : List Char → List Char → List (List Char)
  | [], acc => if acc = [] then [] else [acc.reverse]
  | c :: cs, acc =>
    if c.isDigit then digitRunsAux cs (c :: acc)
    else if acc = [] then digitRunsAux cs []
    else acc.reverse :: digitRunsAux cs (([] : List Char))

/-- All maximal digit runs of a string (views.py lines 614-615). -/
def digitRuns (s : String) : List String :=
  (digitRunsAux s.data []).map fun l => ⟨l⟩

/-- Python string comparison: lexicographic on code points. -/
def charListLt : List Char → List Char → Bool
  | [], [] => false
  | [], _ :: _ => true
  | _ :: _, [] => false
  | a :: as, b :: bs =>
    if a.toNat < b.toNat then true
    else if b.toNat < a.toNat then false
    else charListLt as bs

/-- Python operator < on strings. -/
def strLt (a b : String) : Bool := charListLt a.data b.data

/-- Python max over a list of strings (lexicographic by code point);
none on the empty list, where Python raises ValueError. -/
def maxStr : List String → Option String
  | [] => none
  | x :: xs => some (xs.foldl (fun a b => if strLt a b then b else a) x)

/-- views.py line 617: next starting code built from the chosen digit run:
all-but-last-4 characters, then last 4 characters parsed and incremented,
zero-padded to width 4. -/
def next_invoice_start (last : String) : String :=
  pyDropLast last 4 ++ zero_pad4 ((pyInt (pyTakeLast last 4)).getD 0 + 1)

/-- The commit step of the invoices action (views.py lines 613-618): collect
every digit run of every assigned invoice-number string, take the
lexicographically greatest, and advance it.  none models the ValueError that
the Python max raises when no digit run exists. -/
def commitInvoiceStart (invoice_nos : List String) : Option String :=
  (maxStr (invoice_nos.flatMap digitRuns)).map next_invoice_start

/-- A row of the Vision Star job query (views.py lines 88-111): the twelve
selected columns, in order. -/
structure VistarRow where
  acct : String
  job_id : Nat
  enter_date : String
  frame_name : String
  frame_item_no : String
  frame_name2 : String
  comment1 : String
  ship_date : String
  patient_name : String
  lens_price : ℚ
  frame_price : ℚ
  sales : ℚ
  deriving DecidableEq

/-- A row of the MACOLA account-reference query (views.py lines 118-126):
account number, bill-to provider id, tax rate; the database columns are
nullable, modelled as Option. -/
structure MacolaRow where
  acct : String
  provider : Option Int
  tax_rate : Option ℚ
  deriving DecidableEq

/-- A row of the merged billing frame after fillna and the derived tax and
total columns (views.py lines 211-215). -/
structure MergedRow where
  acct : String
  job_id : Nat
  enter_date : String
  frame_name : String
  frame_item_no : String
  frame_name2 : String
  comment1 : String
  ship_date : String
  patient_name : String
  lens_price : ℚ
  frame_price : ℚ
  sales : ℚ
  provider : Int
  tax_rate : ℚ
  tax : ℚ
  total : ℚ
  deriving DecidableEq

/-- pd.merge on the acct column with the default inner join (views.py
line 211): each job row is paired with every reference row carrying the same
account number; jobs without a match produce nothing. -/
def merge_on_acct (jobs : List VistarRow) (accts : List MacolaRow) :
    List (VistarRow × MacolaRow) :=
  jobs.flatMap fun j => (accts.filter fun a => a.acct == j.acct).map fun a => (j, a)

/-- views.py lines 212-215: fillna(0) on tax_rate and provider, then the
derived columns tax = sales * tax_rate and total = (1 + tax_rate) * sales. -/
def fill_and_derive (p : VistarRow × MacolaRow) : MergedRow :=
  let rate := p.2.tax_rate.getD 0
  { acct := p.1.acct
    job_id := p.1.job_id
    enter_date := p.1.enter_date
    frame_name := p.1.frame_name
    frame_item_no := p.1.frame_item_no
    frame_name2 := p.1.frame_name2
    comment1 := p.1.comment1
    ship_date := p.1.ship_date
    patient_name := p.1.patient_name
    lens_price := p.1.lens_price
    frame_price := p.1.frame_price
    sales := p.1.sales
    provider := p.2.provider.getD 0
    tax_rate := rate
    tax := p.1.sales * rate
    total := (1 + rate) * p.1.sales }

/-- The join-fill-derive part of get_billing_data (views.py lines 211-215). -/
def get_billing_merged (jobs : List VistarRow) (accts : List MacolaRow) :
    List MergedRow :=
  (merge_on_acct jobs accts).map fill_and_derive

/-- The run totals that set_totals attaches to a Category, Provider, or
Account object. -/
structure RunTotals where
  sales : ℚ
  tax : ℚ
  total : ℚ
  deriving DecidableEq

/-- set_totals (views.py lines 177-189): sales and tax are the column sums of
the row group of the entity, total their sum. -/
def set_totals (rows : List MergedRow) : RunTotals :=
  let sales_sum := (rows.map fun r => r.sales).sum
  let tax_sum := (rows.map fun r => r.tax).sum
  { sales := sales_sum, tax := tax_sum, total := sales_sum + tax_sum }

/-- Modelled from the spec: the currency rendering helper is imported from
lab_site_admin.utils, which is not among the billing sources; the spec fixes
its rule as decimal rounding, half-up, to two places (the module decimal
context is set to ROUND_HALF_UP at views.py line 42).  Half-up rounds a .5
tie away from zero. -/
def roundHalfUp2 (q : ℚ) : ℚ :=
  if 0 ≤ q then ((⌊q * 100 + 1 / 2⌋ : ℤ) : ℚ) / 100
  else -(((⌊-q * 100 + 1 / 2⌋ : ℤ) : ℚ) / 100)

/-- The inclusion filter (views.py line 343, billing_data[include_job_mask]):
boolean-mask row selection, one flag per row, keeping flagged rows in order. -/
def filter_included (rows : List MergedRow) (mask : List Bool) : List MergedRow :=
  ((rows.zip mask).filter fun p => p.2).map fun p => p.1

/-- Adjustment kind choices (forms.py kind_choices). -/
inductive AdjKind
  | Credit
  | Debit
  deriving DecidableEq

/-- One adjustment line item as submitted: kind, reference, description, and
an amount (the operator-entered magnitude). -/
structure Adjustment where
  kind : AdjKind
  ref : String
  des : String
  amount : ℚ
  deriving DecidableEq

/-- The sign factor applied by validate_form (views.py line 277):
kind.map(Credit -1, Debit 1). -/
def kindSign : AdjKind → ℚ
  | .Credit => -1
  | .Debit => 1

/-- The normalization validate_form applies to an adjustment formset (views.py
line 277): each amount is multiplied by the sign of its kind. -/
def normalizeAdjustments (l : List Adjustment) : List Adjustment :=
  l.map fun a => { a with amount := a.amount * kindSign a.kind }

/-- adj_df.amount.sum() over the normalized adjustment rows (views.py
lines 376, 577). -/
def adjSum (l : List Adjustment) : ℚ :=
  ((normalizeAdjustments l).map fun a => a.amount).sum

/-- The adjusted account total rendered on registers and invoices:
Dec(acct_obj.total) + adj_sum (views.py lines 389, 589). -/
def adjustedTotal (total : ℚ) (l : List Adjustment) : ℚ :=
  total + adjSum l

/-- The four generation actions dispatched from post (views.py line 343). -/
inductive BillingAction
  | register
  | invoices
  | summary
  | credit
  deriving DecidableEq

/-- Outcome of a post request for the purpose of state tracking: an uncaught
exception, a re-rendered invalid form, or dispatch into the selected
generation handler (whose own document building is external rendering). -/
inductive PostOutcome
  | crash
  | formInvalid
  | dispatched
  deriving DecidableEq

/-- Outcome of validating the adjustment formset of one account inside post
(views.py lines 339-341): an invalid formset and a valid-but-empty one are
both stored as None; only a valid nonempty one yields rows. -/
inductive AdjOutcome
  | invalid
  | empty
  | rows (l : List Adjustment)
  deriving DecidableEq

/-- The per-account form data examined by post, in the order of
billing_data.acct.drop_duplicates(): the account number, the include-formset
outcome (none models a formset whose validation fails, on which
validate_form returns the bound form and the subsequent .tolist() raises),
and the adjustment-formset outcome. -/
structure AccountForms where
  acct : String
  includeOutcome : Option (List Bool)
  adjOutcome : AdjOutcome
  deriving DecidableEq

/-- The submitted data post examines: the selected action, the invoice-number
formset outcome (none models a formset on which validation fails or yields no
rows, so that .tolist() raises at views.py line 319), the save-path form
validity, and the per-account formsets. -/
structure PostInput where
  action : BillingAction
  invFormOutcome : Option (List String)
  savepathValid : Bool
  perAccount : List AccountForms
  deriving DecidableEq

/-- Persisted category state touched by the billing run: the stored starting
invoice code (InvoiceCategory.invoice_start). -/
structure CategoryState where
  invoice_start : String
  deriving DecidableEq

/-- True when the include formset of some account fails validation, which makes
post raise at views.py line 338 before any action runs. -/
def includeCrash (inp : PostInput) : Bool :=
  inp.perAccount.any fun e => e.includeOutcome.isNone

/-- True when at least one include flag is set, i.e. when the boolean-masked
dataset handed to the action (views.py line 343) still contains a row, so
that a groupby loop over it runs at least one iteration. -/
def anyIncludedRow (inp : PostInput) : Bool :=
  inp.perAccount.any fun e => (e.includeOutcome.getD []).any fun b => b

/-- The post control flow (views.py lines 303-343) together with the one
persistent write of the invoices action (views.py lines 613-618), tracked on
CategoryState: numbering-formset failure raises; save-path failure returns
form_invalid; an include-formset failure raises; then the action runs.  The
invoices handler first binds the attrgetter result by chained assignment at
views.py line 450, leaving a tuple in all_providers, so its first provider
group calls .filter on that tuple inside get_object (views.py line 530) and
raises AttributeError: the handler crashes before the commit whenever the
masked dataset still holds a row.  Only on the remaining path (every row
excluded, the groupby loop empty) does invoices assign and save a new
invoice_start, from the digit runs of the submitted invoice numbers (max of
an empty run list raises).  Adjustment formsets are read but their failure is
coerced to None and never stops the request. -/
def runPost (cat : CategoryState) (inp : PostInput) :
    PostOutcome × CategoryState :=
  match inp.invFormOutcome with
  | none => (.crash, cat)
  | some invoice_no_list =>
    if inp.savepathValid then
      if includeCrash inp then (.crash, cat)
      else
        match inp.action with
        | .invoices =>
          if anyIncludedRow inp then (.crash, cat)
          else
            let invoice_nos := (inp.perAccount.map fun e => e.acct).zip invoice_no_list
            match commitInvoiceStart (invoice_nos.map fun e => e.2) with
            | none => (.crash, cat)
            | some nxt => (.dispatched, ⟨nxt⟩)
        | _ => (.dispatched, cat)
    else (.formInvalid, cat)

/-- Key lookup in a Python dict modelled as an association list; none models
a KeyError. -/
def lookupKey {α : Type} (m : List (String × α)) (k : String) : Option α :=
  (m.find? fun p => p.1 == k).map fun p => p.2

/-- The per-account retrieval step of the summary action (views.py line 707)
and of the credit action (views.py line 765): both index the invoice_nos and
adjustments dicts with the literal string key acct_no, not with the account
number held by the identically spelled loop variable, which is ignored. -/
def summaryAcctLookups (invoice_nos : List (String × String))
    (adjustments : List (String × Option (List Adjustment)))
    (acct_no : String) : Option (String × Option (List Adjustment)) :=
  match lookupKey invoice_nos "acct_no", lookupKey adjustments "acct_no" with
  | some inv, some adj => some (inv, adj)
  | _, _ => none

/-- Column list of the Vision Star job query, in SELECT order (views.py
lines 88-111). -/
def vistarColumns : List String :=
  ["acct", "job_id", "enter_date", "frame_name", "frame_item_no",
   "frame_name2", "comment1", "ship_date", "patient_name", "lens_price",
   "frame_price", "sales"]

/-- Column list of the MACOLA account query (views.py lines 118-126). -/
def macolaColumns : List String :=
  ["acct", "provider", "tax_rate"]

/-- Columns of pd.merge(left, right, on=key): the left columns followed by
the right columns minus the join key. -/
def mergeColumns (left right : List String) (key : String) : List String :=
  left ++ right.filter fun c => c != key

/-- Columns of the merged billing frame after the tax and total assignments
(views.py lines 211-215). -/
def billingMergedColumns : List String :=
  mergeColumns vistarColumns macolaColumns "acct" ++ ["tax", "total"]

/-- The by-argument of the sort call (views.py line 216). -/
def sortByKeys : List String :=
  ["cat", "provider", "acct", "ship_date", "patient_name"]

/-- DataFrame.sort_values key validation: pandas raises KeyError naming the
first by-column absent from the frame. -/
def sort_values_check (cols keys : List String) : Except String Unit :=
  match keys.find? (fun k => !cols.contains k) with
  | some k => .error k
  | none => .ok ()

/-! ## Theorems -/

/-- C3: the run totals set_totals attaches to a Category, Provider, or
Account object (views.py lines 177-189, called at lines 224, 239, 247, 370,
379, 538) satisfy total = sales + tax exactly, where sales and tax are the
sums over the filtered job rows of the entity for the run. -/
theorem C3_totals (rows : List MergedRow) :
    (set_totals rows).sales = (rows.map fun r => r.sales).sum ∧
    (set_totals rows).tax = (rows.map fun r => r.tax).sum ∧
    (set_totals rows).total = (set_totals rows).sales + (set_totals rows).tax :=
  ⟨rfl, rfl, rfl⟩

theorem filter_included_sublist :
    ∀ (rows : List MergedRow) (mask : List Bool),
      (filter_included rows mask).Sublist rows
  | [], _ => by simp [filter_included]
  | _ :: _, [] => by simp [filter_included]
  | r :: rs, b :: ms => by
    cases b with
    | false =>
      simpa [filter_included, List.filter_cons] using
        (filter_included_sublist rs ms).cons r
    | true =>
      simpa [filter_included, List.filter_cons] using
        (filter_included_sublist rs ms).cons₂ r

/-- C8: boolean-mask row selection (views.py line 343) with every flag true
returns the dataset unchanged, and for any flag vector the retained rows keep
their original relative order (the output is a sublist of the input). -/
theorem C8_inclusion (rows : List MergedRow) :
    filter_included rows (List.replicate rows.length true) = rows ∧
    ∀ mask : List Bool, (filter_included rows mask).Sublist rows := by
  constructor
  · induction rows with
    | nil => simp [filter_included]
    | cons r rs ih =>
      simpa [filter_included, List.replicate_succ, List.filter_cons] using ih
  · exact fun mask => filter_included_sublist rows mask

theorem adjSum_all_credit (l : List Adjustment)
    (h : ∀ a ∈ l, a.kind = AdjKind.Credit) :
    adjSum l = -((l.map fun a => a.amount).sum) := by
  induction l with
  | nil => simp [adjSum, normalizeAdjustments]
  | cons a as ih =>
    have ha : a.kind = AdjKind.Credit := h a (by simp)
    have has : adjSum as = -((as.map fun x => x.amount).sum) :=
      ih fun x hx => h x (by simp [hx])
    simp only [adjSum, normalizeAdjustments, List.map_cons, List.map_map,
      List.sum_cons] at has ⊢
    rw [ha, has]
    simp [kindSign]
    ring

theorem adjSum_all_debit (l : List Adjustment)
    (h : ∀ a ∈ l, a.kind = AdjKind.Debit) :
    adjSum l = (l.map fun a => a.amount).sum := by
  induction l with
  | nil => simp [adjSum, normalizeAdjustments]
  | cons a as ih =>
    have ha : a.kind = AdjKind.Debit := h a (by simp)
    have has : adjSum as = (as.map fun x => x.amount).sum :=
      ih fun x hx => h x (by simp [hx])
    simp only [adjSum, normalizeAdjustments, List.map_cons, List.map_map,
      List.sum_cons] at has ⊢
    rw [ha, has]
    simp [kindSign]

/-- C5: validate_form (views.py line 277) multiplies each submitted magnitude
by -1 for Credit and +1 for Debit, so the rendered adjusted total
Dec(total) + adj_sum (views.py lines 389, 589) equals the job total minus the
magnitude sum when every adjustment is a Credit, and plus it when every
adjustment is a Debit. -/
theorem C5_sign_law (t : ℚ) (l : List Adjustment) :
    ((normalizeAdjustments l).map (fun a => a.amount)
        = l.map fun a => a.amount * kindSign a.kind) ∧
    ((∀ a ∈ l, a.kind = AdjKind.Credit) →
      adjustedTotal t l = t - (l.map fun a => a.amount).sum) ∧
    ((∀ a ∈ l, a.kind = AdjKind.Debit) →
      adjustedTotal t l = t + (l.map fun a => a.amount).sum) := by
  refine ⟨by simp [normalizeAdjustments], ?_, ?_⟩
  · intro h
    rw [adjustedTotal, adjSum_all_credit l h]
    ring
  · intro h
    rw [adjustedTotal, adjSum_all_debit l h]

/-- C5 witness: one Credit adjustment of magnitude 20 on a total of 162.38
lowers the adjusted total by exactly 20. -/
theorem C5_witness :
    adjustedTotal (16238 / 100) [⟨AdjKind.Credit, "", "", 20⟩] =
      16238 / 100 -
        (([⟨AdjKind.Credit, "", "", 20⟩] : List Adjustment).map
            fun a => a.amount).sum :=
  (C5_sign_law (16238 / 100) [⟨AdjKind.Credit, "", "", 20⟩]).2.1 (by simp)

/-- The C1 request on which the commit is actually reached: the invoices
action on category start RT015001 with three distinct accounts, all forms
validating, no adjustments, and every job row excluded, so the provider loop
of the handler is empty and the tuple bound at views.py line 450 is never
touched. -/
def C1_commit_input : PostInput :=
  { action := .invoices,
    invFormOutcome := some ["RT015001", "RT015002", "RT015003"],
    savepathValid := true,
    perAccount := [⟨"1001", some [false], .empty⟩, ⟨"1002", some [false], .empty⟩,
                   ⟨"1003", some [false], .empty⟩] }

/-- The same C1 request with the job rows included, the natural reading of
the scenario: here the handler raises AttributeError at views.py line 530
(get_object receives the tuple bound at line 450) before the commit. -/
def C1_included_input : PostInput :=
  { action := .invoices,
    invFormOutcome := some ["RT015001", "RT015002", "RT015003"],
    savepathValid := true,
    perAccount := [⟨"1001", some [true], .empty⟩, ⟨"1002", some [true], .empty⟩,
                   ⟨"1003", some [true], .empty⟩] }

/-- C1 counterexample: the persisted invoice_start never becomes RT015004.
With the rows included the handler crashes at views.py line 530 and the start
stays RT015001; on the one committing path (all rows excluded) the digit-run
extraction keeps only 015001..3 of each code and persists 015004, losing the
alphabetic half of the prefix. -/
theorem C1_cex :
    (runPost ⟨"RT015001"⟩ C1_included_input).2.invoice_start = "RT015001" ∧
    (runPost ⟨"RT015001"⟩ C1_commit_input).2.invoice_start = "015004" ∧
    "RT015001" ≠ "RT015004" ∧ "015004" ≠ "RT015004" := by decide

/-- C1 amended: with invoice_start RT015001 and three distinct accounts the
allocator proposes RT015001, RT015002, RT015003 in account order; the
invoices handler then raises at views.py line 530 whenever an included row
remains (the chained assignment at line 450 leaves a tuple in all_providers),
so that run mutates nothing, and on the only committing run — every row
excluded — the persisted invoice_start is 015004, not RT015004: the commit
collects the digit runs of each assigned code (dropping the letters RT),
takes the lexicographic maximum 015003, and increments its last four
digits. -/
theorem C1_scenario :
    allocate "RT015001" 3 = ["RT015001", "RT015002", "RT015003"] ∧
    runPost ⟨"RT015001"⟩ C1_included_input = (.crash, ⟨"RT015001"⟩) ∧
    runPost ⟨"RT015001"⟩ C1_commit_input = (.dispatched, ⟨"015004"⟩) := by decide

/-- The concrete C4 counterexample request: everything validates except the
adjustment formset of one account, and every job row is excluded, so the
handler skips its provider loop (avoiding the tuple crash at views.py
line 530) and reaches the commit. -/
def C4_input : PostInput :=
  { action := .invoices, invFormOutcome := some ["RT015001"],
    savepathValid := true,
    perAccount := [⟨"1001", some [false], .invalid⟩] }

/-- C4 counterexample: an invalid adjustment formset does not stop the
invoices action — validate_form returns the bound formset, post stores None
for that account (views.py line 341), and on this run the commit still
advances and persists invoice_start, so state is mutated although an
upstream form failed validation. -/
theorem C4_cex :
    AdjOutcome.invalid ∈ (C4_input.perAccount.map fun e => e.adjOutcome) ∧
    (runPost ⟨"RT015001"⟩ C4_input).2 ≠ (⟨"RT015001"⟩ : CategoryState) := by
  decide

/-- C4 amended: the persisted invoice_start changes only when the action is
invoices, the numbering formset and save-path form validated, no include
formset failed (numbering and inclusion failures raise before the handler,
the save-path failure re-renders the form), and no job row remains included
(the chained assignment at views.py line 450 leaves a tuple in all_providers
and the first provider group raises at line 530, before the commit);
adjustment-formset validity is not required — an invalid one is coerced to
None and does not block the commit. -/
theorem C4_commit_gating (cat : CategoryState) (inp : PostInput)
    (h : (runPost cat inp).2 ≠ cat) :
    inp.action = BillingAction.invoices ∧ inp.invFormOutcome ≠ none ∧
    inp.savepathValid = true ∧ includeCrash inp = false ∧
    anyIncludedRow inp = false := by
  obtain ⟨act, invF, sp, pa⟩ := inp
  cases invF with
  | none => simp [runPost] at h
  | some lst =>
    cases sp with
    | false => simp [runPost] at h
    | true =>
      cases hic : includeCrash ⟨act, some lst, true, pa⟩ with
      | true => simp [runPost, hic] at h
      | false =>
        cases act with
        | invoices =>
          cases hair : anyIncludedRow ⟨BillingAction.invoices, some lst, true, pa⟩ with
          | true => simp [runPost, hic, hair] at h
          | false => exact ⟨rfl, by simp, rfl, rfl, rfl⟩
        | register => simp [runPost, hic] at h
        | summary => simp [runPost, hic] at h
        | credit => simp [runPost, hic] at h

/-- The concrete request witnessing the gating conclusion of C4: valid forms,
no adjustments, every row excluded. -/
def C4_witness_input : PostInput :=
  { action := .invoices, invFormOutcome := some ["RT015001"],
    savepathValid := true,
    perAccount := [⟨"1001", some [false], .empty⟩] }

/-- C4 witness: an invoices request that does change the persisted
invoice_start, to which the gating theorem applies. -/
theorem C4_witness :
    C4_witness_input.action = BillingAction.invoices ∧
    C4_witness_input.invFormOutcome ≠ none ∧
    C4_witness_input.savepathValid = true ∧
    includeCrash C4_witness_input = false ∧
    anyIncludedRow C4_witness_input = false :=
  C4_commit_gating ⟨"RT015001"⟩ C4_witness_input (by decide)

/-- C6: the summary action (views.py line 707) and the credit action
(views.py line 765) index the per-account dicts with the literal string
acct_no rather than the loop variable, so a run whose mappings are keyed by
real account numbers only hits a KeyError instead of using the invoice
number and adjustments of the account itself: here the lookups for account 1001 return
none although the mappings hold an entry for 1001, and the literal-key lookup
itself is what fails. -/
theorem C6_keyerror :
    summaryAcctLookups [("1001", "RT015001")] [("1001", none)] "1001" = none ∧
    lookupKey ([("1001", "RT015001")]) "acct_no" = none ∧
    lookupKey ([("1001", "RT015001")]) "1001" = some "RT015001" := by decide

/-- C9: the merged billing frame built at views.py lines 211-215 carries the
twelve Vision Star columns, provider, tax_rate, and the derived tax and total
— but no cat column, since the account query (views.py lines 118-126) selects
only acct, provider, and tax_rate; hence the sort call at line 216,
sort_values with by-list cat, provider, acct, ship_date, patient_name,
raises a KeyError naming cat on every run instead of producing the sorted grouped
dataset the claim describes. -/
theorem C9_sort_keyerror :
    sort_values_check billingMergedColumns sortByKeys =
      Except.error "cat" ∧
    "cat" ∉ billingMergedColumns := by
  refine ⟨rfl, ?_⟩
  decide

/-- C10: the merge on acct (views.py line 211) is an inner join — jobs whose
account number matches no reference row contribute nothing, so removing them
beforehand changes nothing and no error is raised — and for joined rows a
missing tax rate is filled with 0 (making tax 0 and total equal to sales)
and a missing provider with the sentinel 0, before tax and total are
derived (views.py lines 212-215). -/
theorem C10_join (jobs : List VistarRow) (accts : List MacolaRow) :
    get_billing_merged jobs accts =
      get_billing_merged
        (jobs.filter fun j => accts.any fun a => a.acct == j.acct) accts ∧
    (∀ j a, a.tax_rate = none →
      (fill_and_derive (j, a)).tax_rate = 0 ∧
      (fill_and_derive (j, a)).tax = 0 ∧
      (fill_and_derive (j, a)).total = j.sales) ∧
    (∀ j a, a.provider = none → (fill_and_derive (j, a)).provider = 0) := by
  refine ⟨?_, ?_, ?_⟩
  · unfold get_billing_merged merge_on_acct
    induction jobs with
    | nil => simp
    | cons j js ih =>
      by_cases hm : (accts.any fun a => a.acct == j.acct) = true
      · rw [List.filter_cons, if_pos hm]
        simp only [List.flatMap_cons, List.map_append]
        rw [ih]
      · have hnil : (accts.filter fun a => a.acct == j.acct) = [] := by
          rw [List.filter_eq_nil_iff]
          intro a ha hcontra
          exact hm (List.any_eq_true.mpr ⟨a, ha, hcontra⟩)
        rw [List.filter_cons, if_neg hm]
        simp only [List.flatMap_cons, hnil, List.map_nil, List.nil_append]
        exact ih
  · intro j a h
    refine ⟨by simp [fill_and_derive, h], by simp [fill_and_derive, h], ?_⟩
    simp [fill_and_derive, h]
  · intro j a h
    simp [fill_and_derive, h]

/-- A job referencing an account number absent from the reference set. -/
def C10_job : VistarRow :=
  { acct := "9999", job_id := 7, enter_date := "N/A", frame_name := "F",
    frame_item_no := "1", frame_name2 := "F", comment1 := "",
    ship_date := "02/01/2024", patient_name := "Roe, Sam",
    lens_price := 15, frame_price := 10, sales := 25 }

/-- A reference row with database nulls in provider and tax rate. -/
def C10_acct : MacolaRow := { acct := "1001", provider := none, tax_rate := none }

/-- C10 witness: the join theorem applied to one unmatched job and one
all-null reference row. -/
theorem C10_witness :
    get_billing_merged [C10_job] [C10_acct] =
      get_billing_merged
        ([C10_job].filter fun j => [C10_acct].any fun a => a.acct == j.acct)
        [C10_acct] ∧
    (fill_and_derive (C10_job, C10_acct)).tax_rate = 0 ∧
    (fill_and_derive (C10_job, C10_acct)).provider = 0 :=
  ⟨(C10_join [C10_job] [C10_acct]).1,
   ((C10_join [C10_job] [C10_acct]).2.1 C10_job C10_acct rfl).1,
   (C10_join [C10_job] [C10_acct]).2.2 C10_job C10_acct rfl⟩

/-- First job of the C7 scenario: sales 100.00. -/
def C7_job1 : VistarRow :=
  { acct := "1001", job_id := 1, enter_date := "01/02/2024",
    frame_name := "F1", frame_item_no := "11", frame_name2 := "F1",
    comment1 := "", ship_date := "01/05/2024", patient_name := "Doe, Jane",
    lens_price := 60, frame_price := 40, sales := 100 }

/-- Second job of the C7 scenario: sales 50.00. -/
def C7_job2 : VistarRow :=
  { C7_job1 with job_id := 2, lens_price := 30, frame_price := 20, sales := 50 }

/-- The C7 account reference row: tax rate 0.0825. -/
def C7_acctRow : MacolaRow :=
  { acct := "1001", provider := some 1, tax_rate := some (825 / 10000) }

/-- C7: two jobs of sales 100.00 and 50.00 at tax rate 0.0825 aggregate to
account sales 150, attached tax 12.375 = 99/8 which the half-up currency
rendering shows as 12.38, and attached total 162.375 rendered as 162.38. -/
theorem C7_scenario :
    (set_totals (get_billing_merged [C7_job1, C7_job2] [C7_acctRow])).sales
        = 150 ∧
    (set_totals (get_billing_merged [C7_job1, C7_job2] [C7_acctRow])).tax
        = 99 / 8 ∧
    roundHalfUp2
        (set_totals (get_billing_merged [C7_job1, C7_job2] [C7_acctRow])).tax
        = 1238 / 100 ∧
    (set_totals (get_billing_merged [C7_job1, C7_job2] [C7_acctRow])).total
        = 150 + 99 / 8 ∧
    roundHalfUp2
        (set_totals (get_billing_merged [C7_job1, C7_job2] [C7_acctRow])).total
        = 16238 / 100 := by
  have h : set_totals (get_billing_merged [C7_job1, C7_job2] [C7_acctRow]) =
      { sales := 150, tax := 99 / 8, total := 150 + 99 / 8 } := by
    simp [set_totals, get_billing_merged, merge_on_acct, fill_and_derive,
      C7_job1, C7_job2, C7_acctRow]
    norm_num
  rw [h]
  refine ⟨rfl, rfl, ?_, rfl, ?_⟩
  · rw [roundHalfUp2]
    norm_num
  · rw [roundHalfUp2]
    norm_num

theorem charDigitVal_digitChar : ∀ d, d < 10 →
    charDigitVal (Nat.digitChar d) = d := by decide

theorem zeros_foldl : ∀ k,
    List.foldl (fun a c => 10 * a + charDigitVal c) 0
      (List.replicate k '0') = 0 := by
  intro k
  induction k with
  | zero => rfl
  | succ k ih =>
    rw [List.replicate_succ, List.foldl_cons]
    have h0 : (10 * 0 + charDigitVal '0') = 0 := by decide
    rw [h0]
    exact ih

theorem pad_parse (k : Nat) (l : List Char) :
    parseDigits (List.replicate k '0' ++ l) = parseDigits l := by
  unfold parseDigits
  rw [List.foldl_append, zeros_foldl]

theorem repr_parse : ∀ fuel n, n < fuel →
    parseDigits (natReprAux fuel n) = n := by
  intro fuel
  induction fuel with
  | zero => exact fun n h => absurd h (Nat.not_lt_zero n)
  | succ fuel ih =>
    intro n h
    rw [natReprAux]
    by_cases h10 : n < 10
    · rw [if_pos h10]
      show 10 * 0 + charDigitVal (Nat.digitChar n) = n
      rw [Nat.mul_zero, Nat.zero_add]
      exact charDigitVal_digitChar n h10
    · rw [if_neg h10]
      have hdiv : n / 10 < fuel := by
        have h1 : n / 10 < n := Nat.div_lt_self (by omega) (by omega)
        omega
      unfold parseDigits
      rw [List.foldl_append]
      show 10 * parseDigits (natReprAux fuel (n / 10)) +
        charDigitVal (Nat.digitChar (n % 10)) = n
      rw [ih (n / 10) hdiv, charDigitVal_digitChar (n % 10) (Nat.mod_lt n (by omega))]
      omega

theorem natRepr_parse (n : Nat) : parseDigits (natRepr n) = n :=
  repr_parse (n + 1) n (Nat.lt_succ_self n)

theorem zero_pad4_parse (v : Nat) : parseDigits (zero_pad4 v).data = v := by
  show parseDigits (List.replicate (4 - (natRepr v).length) '0' ++ natRepr v) = v
  rw [pad_parse, natRepr_parse]

theorem zero_pad4_inj {v w : Nat} (h : zero_pad4 v = zero_pad4 w) : v = w := by
  have := congrArg (fun s : String => parseDigits s.data) h
  simpa [zero_pad4_parse] using this

theorem natReprAux_ne_nil : ∀ fuel n, n < fuel → natReprAux fuel n ≠ [] := by
  intro fuel
  induction fuel with
  | zero => exact fun n h => absurd h (Nat.not_lt_zero n)
  | succ fuel _ =>
    intro n _
    rw [natReprAux]
    by_cases h10 : n < 10
    · rw [if_pos h10]
      exact List.cons_ne_nil _ _
    · rw [if_neg h10]
      exact List.append_ne_nil_of_right_ne_nil _ (List.cons_ne_nil _ _)

theorem natReprAux_length_le : ∀ fuel n k, n < fuel →
    ((natReprAux fuel n).length ≤ k + 1 ↔ n < 10 ^ (k + 1)) := by
  intro fuel
  induction fuel with
  | zero => exact fun n k h => absurd h (Nat.not_lt_zero n)
  | succ fuel ih =>
    intro n k h
    rw [natReprAux]
    by_cases h10 : n < 10
    · rw [if_pos h10]
      have hpow : 10 ≤ 10 ^ (k + 1) := by
        calc 10 = 10 ^ 1 := (pow_one 10).symm
        _ ≤ 10 ^ (k + 1) := Nat.pow_le_pow_right (by omega) (by omega)
      simp only [List.length_singleton]
      exact ⟨fun _ => lt_of_lt_of_le h10 hpow, fun _ => by omega⟩
    · rw [if_neg h10]
      have hdiv : n / 10 < fuel := by
        have h1 : n / 10 < n := Nat.div_lt_self (by omega) (by omega)
        omega
      rw [List.length_append, List.length_singleton]
      cases k with
      | zero =>
        have hne := natReprAux_ne_nil fuel (n / 10) hdiv
        have hlen : 1 ≤ (natReprAux fuel (n / 10)).length :=
          Nat.one_le_iff_ne_zero.mpr fun hz => hne (List.length_eq_zero.mp hz)
        constructor
        · intro hcon
          omega
        · intro hcon
          rw [pow_one] at hcon
          omega
      | succ k =>
        have hiff := ih (n / 10) k hdiv
        have hdiviff : n / 10 < 10 ^ (k + 1) ↔ n < 10 ^ (k + 1 + 1) := by
          rw [pow_succ]
          exact Nat.div_lt_iff_lt_mul (by omega)
        constructor
        · intro hle
          exact hdiviff.mp (hiff.mp (by omega))
        · intro hlt
          have := hiff.mpr (hdiviff.mpr hlt)
          omega

theorem natRepr_length_le4 (v : Nat) :
    (natRepr v).length ≤ 4 ↔ v < 10000 := by
  have := natReprAux_length_le (v + 1) v 3 (Nat.lt_succ_self v)
  norm_num at this
  exact this

theorem zero_pad4_length (v : Nat) :
    (zero_pad4 v).length = (4 - (natRepr v).length) + (natRepr v).length := by
  show (List.replicate (4 - (natRepr v).length) '0' ++ natRepr v).length = _
  rw [List.length_append, List.length_replicate]

/-- C2 counterexample: with starting code RT019999 (4-character prefix RT01,
numeric suffix 9999) and count 2, the second proposed code is RT0110000 —
nine characters, since the format spec 0>4 pads but never truncates — so the
codes are not all exactly 8 characters when start + n - 1 exceeds 9999. -/
theorem C2_cex :
    allocate "RT019999" 2 = ["RT019999", "RT0110000"] ∧
    ¬ ∀ c ∈ allocate "RT019999" 2, c.length = 8 := by decide

/-- C2 amended: for a starting code splitting into a 4-character prefix and a
numeric suffix s, allocate returns exactly n distinct codes, each the prefix
followed by the zero-padded suffix, suffixes consecutively s, s+1, ..,
s+n-1, each code beginning with the prefix; every code is exactly 8
characters when s + n - 1 stays within 9999, and when it exceeds 9999 some
code is longer than 8 characters (no wrapping or validation occurs). -/
theorem C2_allocator (start p : String) (s n : Nat)
    (hp : pyDropLast start 4 = p)
    (hs : pyInt (pyTakeLast start 4) = some s)
    (hplen : p.length = 4) (hn : 1 ≤ n) :
    (allocate start n).length = n ∧
    List.Pairwise (fun a b => a ≠ b) (allocate start n) ∧
    allocate start n = (List.range n).map (fun i => p ++ zero_pad4 (s + i)) ∧
    (∀ c ∈ allocate start n, ∃ t, c.data = p.data ++ t) ∧
    (s + n - 1 ≤ 9999 → ∀ c ∈ allocate start n, c.length = 8) ∧
    (9999 < s + n - 1 → ∃ c ∈ allocate start n, 8 < c.length) := by
  have halloc : allocate start n =
      (List.range n).map fun i => p ++ zero_pad4 (s + i) := by
    rw [allocate, hp, hs]
    rfl
  have hinj : ∀ i j : Nat, p ++ zero_pad4 (s + i) = p ++ zero_pad4 (s + j) →
      i = j := by
    intro i j hij
    have hdata := congrArg String.data hij
    rw [String.data_append, String.data_append] at hdata
    have hpad : (zero_pad4 (s + i)).data = (zero_pad4 (s + j)).data :=
      List.append_cancel_left hdata
    have hval := congrArg parseDigits hpad
    rw [zero_pad4_parse, zero_pad4_parse] at hval
    omega
  refine ⟨by rw [halloc]; simp, ?_, halloc, ?_, ?_, ?_⟩
  · rw [halloc, List.pairwise_map]
    exact (List.pairwise_lt_range n).imp fun hlt heq =>
      absurd (hinj _ _ heq) (by omega)
  · intro c hc
    rw [halloc, List.mem_map] at hc
    obtain ⟨i, _, rfl⟩ := hc
    exact ⟨(zero_pad4 (s + i)).data, String.data_append _ _⟩
  · intro hbound c hc
    rw [halloc, List.mem_map] at hc
    obtain ⟨i, hi, rfl⟩ := hc
    rw [List.mem_range] at hi
    have hsi : s + i < 10000 := by omega
    have hlen : (natRepr (s + i)).length ≤ 4 := (natRepr_length_le4 _).mpr hsi
    rw [String.length_append, hplen, zero_pad4_length]
    omega
  · intro hbound
    refine ⟨p ++ zero_pad4 (s + (n - 1)), ?_, ?_⟩
    · rw [halloc, List.mem_map]
      exact ⟨n - 1, List.mem_range.mpr (by omega), rfl⟩
    · have hsi : ¬ s + (n - 1) < 10000 := by omega
      have hlen : ¬ (natRepr (s + (n - 1))).length ≤ 4 := fun hcon =>
        hsi ((natRepr_length_le4 _).mp hcon)
      rw [String.length_append, hplen, zero_pad4_length]
      omega

/-- C2 witness: the allocator theorem applied to starting code RT015001 with
three accounts. -/
theorem C2_witness :
    (allocate "RT015001" 3).length = 3 ∧
    List.Pairwise (fun a b => a ≠ b) (allocate "RT015001" 3) ∧
    allocate "RT015001" 3 =
      (List.range 3).map (fun i => "RT01" ++ zero_pad4 (5001 + i)) ∧
    (∀ c ∈ allocate "RT015001" 3, ∃ t, c.data = "RT01".data ++ t) ∧
    (5001 + 3 - 1 ≤ 9999 → ∀ c ∈ allocate "RT015001" 3, c.length = 8) ∧
    (9999 < 5001 + 3 - 1 → ∃ c ∈ allocate "RT015001" 3, 8 < c.length) :=
  C2_allocator "RT015001" "RT01" 5001 3 (by decide) (by decide) (by decide)
    (by decide)

end Billing
